import Mathlib

/-!
Shallow embedding of PlayBuffer's PlayWindow.cpp (Play::Window manager, message
loop, image loading) and the sprite-draw entry points of PlayGraphics.h, with
theorems checking the specification's claims against the code.
-/

namespace PlayWindow

/-- A 2D float vector (Point2f / Vector2f); float components modelled as ℚ. -/
structure Vector2f where
  x : ℚ
  y : ℚ
deriving DecidableEq, Repr

/-- PixelData: a width x height buffer of 32-bit ARGB pixels. -/
structure PixelData where
  width : ℤ
  height : ℤ
  pPixels : List ℕ
deriving DecidableEq, Repr

/-- MouseData: mouse button state and position shared with game code. -/
structure MouseData where
  left : Bool
  right : Bool
  pos : Vector2f
deriving DecidableEq, Repr

/-- The private data of namespace Play::Window (PlayWindow.cpp lines 42-46).
Null pointers are modelled as none. -/
structure WindowState where
  m_scale : ℤ
  m_pPlayBuffer : Option PixelData
  m_pMouseData : Option MouseData
  m_bCreated : Bool
deriving DecidableEq, Repr

/-- C++ integer division truncates toward zero, matching Int.tdiv. -/
def cppDiv (a b : ℤ) : ℤ := Int.tdiv a b

/-- A fatal assertion is modelled as an Except.error carrying the message:
PLAY_ASSERT_MSG(cond, msg) aborts the process when cond is false. -/
def PLAY_ASSERT_MSG (cond : Bool) (msg : String) : Except String Unit :=
  if cond then Except.ok () else Except.error msg

/-- PLAY_ASSERT(cond) (no explicit message). -/
def PLAY_ASSERT (cond : Bool) : Except String Unit :=
  PLAY_ASSERT_MSG cond "assertion failure"

/-- The message of the ASSERT_WINDOW macro (PlayWindow.cpp line 23). -/
def ASSERT_WINDOW_MSG : String :=
  "Window Manager not initialised. Call Window::CreateManager() before using the Play::Window library functions."

/-- ASSERT_WINDOW: PLAY_ASSERT_MSG(Play::Window::m_bCreated, ...). -/
def ASSERT_WINDOW (st : WindowState) : Except String Unit :=
  PLAY_ASSERT_MSG st.m_bCreated ASSERT_WINDOW_MSG

/-- Play::Window::CreateManager (PlayWindow.cpp lines 52-60): asserts the
buffer pointer is non-null and the scale positive, then binds both, marks the
manager created and returns true. -/
def CreateManager (pDisplayBuffer : Option PixelData) (nScale : ℤ)
    (st : WindowState) : Except String (Bool × WindowState) := do
  PLAY_ASSERT pDisplayBuffer.isSome
  PLAY_ASSERT (decide (nScale > 0))
  Except.ok (true,
    { st with m_pPlayBuffer := pDisplayBuffer, m_scale := nScale, m_bCreated := true })

/-- Play::Window::DestroyManager (PlayWindow.cpp lines 62-67). -/
def DestroyManager (st : WindowState) : Except String (Bool × WindowState) := do
  ASSERT_WINDOW st
  Except.ok (true, { st with m_bCreated := false })

/-- Play::Window::RegisterMouse (PlayWindow.cpp lines 255-259). -/
def RegisterMouse (pMouseData : Option MouseData) (st : WindowState) :
    Except String WindowState := do
  ASSERT_WINDOW st
  Except.ok { st with m_pMouseData := pMouseData }

/-- Play::Window::GetWidth (PlayWindow.cpp lines 261-265); dereferencing a
null buffer pointer is undefined behaviour, modelled as a distinct error. -/
def GetWidth (st : WindowState) : Except String ℤ := do
  ASSERT_WINDOW st
  match st.m_pPlayBuffer with
  | some buf => Except.ok buf.width
  | none => Except.error "null dereference"

/-- Play::Window::GetHeight (PlayWindow.cpp lines 267-271). -/
def GetHeight (st : WindowState) : Except String ℤ := do
  ASSERT_WINDOW st
  match st.m_pPlayBuffer with
  | some buf => Except.ok buf.height
  | none => Except.error "null dereference"

/-- Play::Window::GetScale (PlayWindow.cpp lines 273-277). -/
def GetScale (st : WindowState) : Except String ℤ := do
  ASSERT_WINDOW st
  Except.ok st.m_scale

/-- Play::Window::Present (PlayWindow.cpp lines 219-253): copies the display
buffer to the window (an OS blit with no observable effect on the model state)
and returns the measured copy duration in milliseconds.  The two performance
counter readings and the counter frequency are passed in explicitly. -/
def Present (before after frequency : ℤ) (st : WindowState) :
    Except String ℚ := do
  ASSERT_WINDOW st
  match st.m_pPlayBuffer with
  | some _ => Except.ok (((after - before : ℤ) : ℚ) * 1000 / (frequency : ℚ))
  | none => Except.error "null dereference"

/-- The window messages dispatched to Play::Window::WndProc that the switch
statement distinguishes (PlayWindow.cpp lines 175-215).  For WM_MOUSEMOVE the
two payload integers are GET_X_LPARAM(lParam) and GET_Y_LPARAM(lParam). -/
inductive WndMsg where
  | paint
  | destroy
  | lbuttondown
  | lbuttonup
  | rbuttondown
  | rbuttonup
  | mousemove (x y : ℤ)
  | mouseleave
  | other
deriving DecidableEq, Repr

/-- Play::Window::WndProc (PlayWindow.cpp lines 171-217).  Returns the updated
window state and whether a WM_QUIT message was posted (PostQuitMessage on
WM_DESTROY).  The WM_MOUSELEAVE case dereferences m_pMouseData without a null
check, unlike the mouse-button and mouse-move cases. -/
def WndProc (message : WndMsg) (st : WindowState) :
    Except String (WindowState × Bool) := do
  ASSERT_WINDOW st
  match message with
  | .paint => Except.ok (st, false)
  | .destroy => Except.ok (st, true)
  | .lbuttondown =>
      match st.m_pMouseData with
      | some md => Except.ok ({ st with m_pMouseData := some { md with left := true } }, false)
      | none => Except.ok (st, false)
  | .lbuttonup =>
      match st.m_pMouseData with
      | some md => Except.ok ({ st with m_pMouseData := some { md with left := false } }, false)
      | none => Except.ok (st, false)
  | .rbuttondown =>
      match st.m_pMouseData with
      | some md => Except.ok ({ st with m_pMouseData := some { md with right := true } }, false)
      | none => Except.ok (st, false)
  | .rbuttonup =>
      match st.m_pMouseData with
      | some md => Except.ok ({ st with m_pMouseData := some { md with right := false } }, false)
      | none => Except.ok (st, false)
  | .mousemove wx wy =>
      match st.m_pMouseData with
      | some md =>
          match st.m_pPlayBuffer with
          | some buf =>
              Except.ok ({ st with m_pMouseData := some { md with pos :=
                ⟨((cppDiv wx st.m_scale : ℤ) : ℚ),
                 (buf.height : ℚ) - ((cppDiv wy st.m_scale : ℤ) : ℚ)⟩ } }, false)
          | none => Except.error "null dereference"
      | none => Except.ok (st, false)
  | .mouseleave =>
      match st.m_pMouseData with
      | some md => Except.ok ({ st with m_pMouseData := some { md with pos := ⟨-1, -1⟩ } }, false)
      | none => Except.error "null dereference"
  | .other => Except.ok (st, false)

/-- A message retrieved by PeekMessage in the HandleWindows loop: either
WM_QUIT, or any other message whose dispatch (TranslateMessage /
DispatchMessage, ultimately WndProc) may post WM_QUIT, e.g. via WM_DESTROY
calling PostQuitMessage.  The dispatch effect on the window state is
abstracted to that one observable bit. -/
inductive LoopMsg where
  | quitMsg
  | otherMsg (postsQuit : Bool)
deriving DecidableEq, Repr

/-- Observable events of the HandleWindows frame loop: a MainGameUpdate call
records the elapsed-seconds float argument and the returned quit flag; an
exit event records the MainGameExit call made after the loop. -/
inductive LoopEvent where
  | updateCall (elapsedSeconds : ℚ) (ret : Bool)
  | exitCall
deriving DecidableEq, Repr

/-- Why the while loop of HandleWindows ended: the break on a WM_QUIT message
(line 135), or MainGameUpdate returning true (line 155). -/
inductive QuitReason where
  | quitMessage
  | updateRequested
deriving DecidableEq, Repr

/-- The mutable locals of the HandleWindows message loop: the pending message
queue, lastDrawTime, the index of the next QueryPerformanceCounter reading to
consume, and the number of loop iterations completed so far (used to index
the focus and update oracles of the environment). -/
structure LoopState where
  msgQueue : List LoopMsg
  lastDrawTime : ℤ
  clockIdx : ℕ
  iter : ℕ
deriving DecidableEq, Repr

/-- The environment HandleWindows runs in: the successive
QueryPerformanceCounter readings, the counter frequency, the
FRAMES_PER_SECOND constant (defined outside this translation unit), whether
GetFocus() returns the window handle at a given iteration, the result of the
i-th iteration's MainGameUpdate call given its elapsed-seconds argument, and
whether the build is a debug (_DEBUG) configuration. -/
structure FrameEnv where
  clock : ℕ → ℤ
  frequency : ℤ
  fps : ℚ
  focus : ℕ → Bool
  update : ℕ → ℚ → Bool
  isDebug : Bool

/-- elapsedTime = (now.QuadPart - lastDrawTime.QuadPart) * 1000.0 /
frequency.QuadPart (PlayWindow.cpp line 147), in milliseconds. -/
def elapsedMsOf (env : FrameEnv) (now lastDrawTime : ℤ) : ℚ :=
  ((now - lastDrawTime : ℤ) : ℚ) * 1000 / (env.frequency : ℚ)

/-- The busy-wait do/while of PlayWindow.cpp lines 144-149: polls the
performance counter until at least 1000/FRAMES_PER_SECOND ms have elapsed
since lastDrawTime.  fuel bounds the number of polls; on success it returns
the next unread clock index, the final counter value now, and the elapsed
milliseconds. -/
def busyWait (env : FrameEnv) : ℕ → ℕ → ℤ → Option (ℕ × ℤ × ℚ)
  | 0, _, _ => none
  | fuel + 1, k, lastDrawTime =>
      let now := env.clock k
      let e := elapsedMsOf env now lastDrawTime
      if e < 1000 / env.fps then busyWait env fuel (k + 1) lastDrawTime
      else some (k + 1, now, e)

/-- The message-handling phase of one loop iteration (PlayWindow.cpp lines
131-142): a single PeekMessage with PM_REMOVE retrieves at most one pending
message; WM_QUIT breaks out of the loop (first component true), any other
message is dispatched, possibly posting WM_QUIT onto the queue. -/
def messagePhase (s : LoopState) : Bool × LoopState :=
  match s.msgQueue with
  | [] => (false, s)
  | LoopMsg.quitMsg :: rest => (true, { s with msgQueue := rest })
  | LoopMsg.otherMsg p :: rest =>
      (false, { s with msgQueue := if p then rest ++ [LoopMsg.quitMsg] else rest })

/-- Result of one iteration of the while loop. -/
inductive StepResult where
  | broke (s : LoopState)
  | stalled (s : LoopState)
  | stepped (quit : Bool) (ev : Option LoopEvent) (s : LoopState)
deriving DecidableEq, Repr

/-- One iteration of the while loop of HandleWindows (PlayWindow.cpp lines
129-160): handle at most one pending message (breaking on WM_QUIT), busy-wait
for the frame interval, call MainGameUpdate with elapsed seconds — in a
release configuration only when the window has input focus — and store the
post-wait counter value into lastDrawTime.  DwmFlush has no model-visible
effect.  stalled marks busy-wait fuel exhaustion (the clock never advanced
far enough). -/
def frameStep (env : FrameEnv) (waitFuel : ℕ) (s : LoopState) : StepResult :=
  let s1 := (messagePhase s).2
  if (messagePhase s).1 then StepResult.broke s1
  else
    match busyWait env waitFuel s1.clockIdx s1.lastDrawTime with
    | none => StepResult.stalled s1
    | some (k, now, e) =>
        let callUpdate := env.isDebug || env.focus s1.iter
        let quit := if callUpdate then env.update s1.iter (e / 1000) else false
        let ev : Option LoopEvent :=
          if callUpdate then some (LoopEvent.updateCall (e / 1000) quit) else none
        (StepResult.stepped quit ev
          { s1 with clockIdx := k, lastDrawTime := now, iter := s1.iter + 1 })

/-- Result of running the while loop: finished (the loop exited, with the
reason and the trace of MainGameUpdate events), or outOfFuel (the iteration
bound ran out, or the busy-wait stalled, with the loop conceptually still
running). -/
inductive RunResult where
  | finished (reason : QuitReason) (trace : List LoopEvent) (s : LoopState)
  | outOfFuel (trace : List LoopEvent) (s : LoopState)
deriving DecidableEq, Repr

/-- Prefix this iteration's events onto the events of the remaining loop
iterations. -/
def prependEvents (l : List LoopEvent) : RunResult → RunResult
  | RunResult.finished r tr s => RunResult.finished r (l ++ tr) s
  | RunResult.outOfFuel tr s => RunResult.outOfFuel (l ++ tr) s

/-- The while (!quit) loop of HandleWindows (PlayWindow.cpp lines 129-160),
iterated up to the given fuel.  The trace collects the MainGameUpdate events
in order; MainGameExit itself is invoked by HandleWindows after the loop. -/
def runLoop (env : FrameEnv) (waitFuel : ℕ) : ℕ → LoopState → RunResult
  | 0, s => RunResult.outOfFuel [] s
  | n + 1, s =>
      match frameStep env waitFuel s with
      | StepResult.broke s1 => RunResult.finished QuitReason.quitMessage [] s1
      | StepResult.stalled s1 => RunResult.outOfFuel [] s1
      | StepResult.stepped true ev s1 =>
          RunResult.finished QuitReason.updateRequested ev.toList s1
      | StepResult.stepped false ev s1 =>
          prependEvents ev.toList (runLoop env waitFuel n s1)

/-- The trace of a RunResult. -/
def RunResult.trace : RunResult → List LoopEvent
  | RunResult.finished _ tr _ => tr
  | RunResult.outOfFuel tr _ => tr

/-- The loop state on entry to the first iteration: the pending messages, the
initial lastDrawTime read by QueryPerformanceCounter (PlayWindow.cpp line
125), and the next clock reading to consume. -/
def initLoopState (env : FrameEnv) (msgs : List LoopMsg) (startClockIdx : ℕ) :
    LoopState :=
  { msgQueue := msgs, lastDrawTime := env.clock startClockIdx,
    clockIdx := startClockIdx + 1, iter := 0 }

/-- After the while loop exits, MainGameExit() is called exactly once
(PlayWindow.cpp line 163), recorded as LoopEvent.exitCall at the end of the
trace; if the loop is still running (out of fuel) it is not called. -/
def finishRun : RunResult → RunResult
  | RunResult.finished r tr s => RunResult.finished r (tr ++ [LoopEvent.exitCall]) s
  | RunResult.outOfFuel tr s => RunResult.outOfFuel tr s

/-- Play::Window::HandleWindows (PlayWindow.cpp lines 73-169): asserts the
manager was created, creates the window (OS calls without model content),
reads the initial lastDrawTime counter, runs the message loop, and after the
loop calls MainGameExit exactly once.  If the loop fuel runs out the loop is
still running and MainGameExit has not been called. -/
def HandleWindows (env : FrameEnv) (waitFuel iterFuel : ℕ)
    (msgs : List LoopMsg) (startClockIdx : ℕ) (st : WindowState) :
    Except String RunResult := do
  ASSERT_WINDOW st
  Except.ok (finishRun (runLoop env waitFuel iterFuel
    (initLoopState env msgs startClockIdx)))

/-- The result of Gdiplus::Bitmap::FromFile: the object's GetLastStatus value
(0 is Gdiplus::Ok; decode failures are positive codes), its dimensions, and
the 32bpp ARGB pixel data obtained through LockBits. -/
structure GdiplusBitmap where
  status : ℕ
  width : ℕ
  height : ℕ
  pixels : List ℕ
deriving DecidableEq, Repr

/-- LoadPNGImage (PlayWindow.cpp lines 313-362), parametrised by the GDI+
decoder.  If GetLastStatus is not Ok the negated status is returned before
destImage is touched; otherwise destImage receives the bitmap's dimensions
and a freshly allocated pixel array, zero-initialised (memset) and then
filled with width*height pixels copied from the locked bitmap data, and 1 is
returned. -/
def LoadPNGImage (fromFile : String → GdiplusBitmap) (fileAndPath : String)
    (destImage : PixelData) : ℤ × PixelData :=
  let bitmap := fromFile fileAndPath
  if bitmap.status ≠ 0 then (-(bitmap.status : ℤ), destImage)
  else
    let w := (bitmap.width : ℤ)
    let h := (bitmap.height : ℤ)
    let n := bitmap.width * bitmap.height
    (1, { width := w, height := h,
          pPixels := (List.range n).map (fun i => bitmap.pixels.getD i 0) })

end PlayWindow

namespace PlayGraphics

/-- Blend modes of Play::Graphics (PlayGraphics.h lines 11-17). -/
inductive BlendMode where
  | BLEND_NORMAL
  | BLEND_ADD
  | BLEND_MULTIPLY
  | BLEND_SUBTRACT
deriving DecidableEq, Repr

/-- The RGBA global multiply factor of the sprite-draw calls
(PlayGraphics.h lines 108-114); float channels modelled as ℚ. -/
structure BlendColour where
  alpha : ℚ
  red : ℚ
  green : ℚ
  blue : ℚ
deriving DecidableEq, Repr

/-- The default globalMultiply argument { 1.0f, 1.0f, 1.0f, 1.0f }. -/
def opaqueWhite : BlendColour := ⟨1, 1, 1, 1⟩

/-- A pixel with its four channels as exact rationals in [0,1] (the
premultiplied-alpha working representation of the spec's rasterizer). -/
structure QPixel where
  a : ℚ
  r : ℚ
  g : ℚ
  b : ℚ
deriving DecidableEq, Repr

/-- Channel-wise application of the RGBA multiply factor to a source pixel. -/
def applyMultiply (m : BlendColour) (p : QPixel) : QPixel :=
  ⟨m.alpha * p.a, m.red * p.r, m.green * p.g, m.blue * p.b⟩

/-- Clamp a channel to [0,1]. -/
def clamp01 (q : ℚ) : ℚ := max 0 (min 1 q)

/-- Modelled from the spec: the per-pixel blend-mode compositors of the
rasterizer (PlayRender.cpp, not under src/) — NORMAL is the standard
premultiplied-alpha-over composite, ADD is additive with clamping, MULTIPLY
is component-wise multiply, SUBTRACT is component-wise clamped subtract
(spec section 4.3). -/
def blendPixel (mode : BlendMode) (src dest : QPixel) : QPixel :=
  match mode with
  | BlendMode.BLEND_NORMAL =>
      ⟨src.a + (1 - src.a) * dest.a, src.r + (1 - src.a) * dest.r,
       src.g + (1 - src.a) * dest.g, src.b + (1 - src.a) * dest.b⟩
  | BlendMode.BLEND_ADD =>
      ⟨dest.a, clamp01 (dest.r + src.r), clamp01 (dest.g + src.g), clamp01 (dest.b + src.b)⟩
  | BlendMode.BLEND_MULTIPLY =>
      ⟨dest.a, dest.r * src.r, dest.g * src.g, dest.b * src.b⟩
  | BlendMode.BLEND_SUBTRACT =>
      ⟨dest.a, clamp01 (dest.r - src.r), clamp01 (dest.g - src.g), clamp01 (dest.b - src.b)⟩

/-- Modelled from the spec: Graphics::DrawTransparent (its body lives in
PlayRender.cpp, which is not under src/).  Per spec section 4.3, it selects
the frame sub-rectangle of the sprite's premultiplied buffer and composites
it onto the target, applying the RGBA multiply factor to each source pixel —
skipped as a fast path when the factor is exactly opaque-white and the blend
mode is normal, falling back to the same composite without the per-pixel
multiply work.  The frame selection and target sampling are abstracted into
the sample oracle, which yields the (source, destination) pixel pairs the
blit visits for a given sprite id, position and frame index; the function
returns the composited destination pixels in order. -/
def DrawTransparent (sample : ℤ → PlayWindow.Vector2f → ℤ → List (QPixel × QPixel))
    (mode : BlendMode) (spriteId : ℤ) (pos : PlayWindow.Vector2f) (frameIndex : ℤ)
    (globalMultiply : BlendColour) : List QPixel :=
  let srcDest := sample spriteId pos frameIndex
  if globalMultiply = opaqueWhite ∧ mode = BlendMode.BLEND_NORMAL then
    srcDest.map (fun sd => blendPixel BlendMode.BLEND_NORMAL sd.1 sd.2)
  else
    srcDest.map (fun sd => blendPixel mode (applyMultiply globalMultiply sd.1) sd.2)

/-- Graphics::Draw (PlayGraphics.h line 110): inline void Draw(spriteId, pos,
frameIndex) { DrawTransparent(spriteId, pos, frameIndex); } — the defaulted
globalMultiply argument is { 1.0f, 1.0f, 1.0f, 1.0f }. -/
def Draw (sample : ℤ → PlayWindow.Vector2f → ℤ → List (QPixel × QPixel))
    (mode : BlendMode) (spriteId : ℤ) (pos : PlayWindow.Vector2f)
    (frameIndex : ℤ) : List QPixel :=
  DrawTransparent sample mode spriteId pos frameIndex opaqueWhite

end PlayGraphics

namespace PlayWindow

/-- Concrete fixture: a 320x240 display buffer. -/
def testBuffer : PixelData := ⟨320, 240, []⟩

/-- Concrete fixture: initial mouse data. -/
def testMouse : MouseData := ⟨false, false, ⟨0, 0⟩⟩

/-- Concrete fixture: the window state before CreateManager. -/
def uncreatedState : WindowState := ⟨0, none, none, false⟩

/-- Concrete fixture: a window state after a successful CreateManager with
scale 4 and a registered mouse. -/
def createdState : WindowState := ⟨4, some testBuffer, some testMouse, true⟩

/-- Concrete fixture: an environment whose performance counter advances by
one unit per poll at frequency 1 (so one tick is 1000 ms), running at 100
frames per second with focus held and an update callback that requests quit
immediately, in a release configuration. -/
def testEnv : FrameEnv :=
  { clock := fun k => (k : ℤ), frequency := 1, fps := 100,
    focus := fun _ => true, update := fun _ _ => true, isDebug := false }

/-- Concrete fixture: as testEnv but the window never has focus and the
update callback never requests quit. -/
def noFocusEnv : FrameEnv :=
  { clock := fun k => (k : ℤ), frequency := 1, fps := 100,
    focus := fun _ => false, update := fun _ _ => false, isDebug := false }

/-- Concrete fixture: the loop state at entry of the first iteration, with an
empty message queue (lastDrawTime was read at clock index 0). -/
def emptyQueueState : LoopState := ⟨[], 0, 1, 0⟩

/-- Concrete fixture: a loop state with two pending non-quit messages. -/
def twoMsgState : LoopState := ⟨[LoopMsg.otherMsg false, LoopMsg.otherMsg false], 0, 1, 0⟩

end PlayWindow

namespace PlayWindow

/-- C5 counterexample: a display buffer with invalid dimensions (width 0,
height -3) is accepted by CreateManager — creation succeeds, binds the buffer
and returns true instead of failing an assertion, so invalid dimensions are
not checked at manager creation. -/
theorem createManager_dimensions_unchecked :
    CreateManager (some ⟨0, -3, []⟩) 1 uncreatedState =
      Except.ok (true, ⟨1, some ⟨0, -3, []⟩, none, true⟩) := by
  rfl

/-- C5 (amended): CreateManager fails with a fatal assertion when the display
buffer pointer is null or the scale is non-positive — buffer dimensions are
not validated — and otherwise binds both values, marks the manager created
and returns true. -/
theorem createManager_spec (p : Option PixelData) (n : ℤ) (st : WindowState) :
    ((p = none ∨ n ≤ 0) → ∃ msg, CreateManager p n st = Except.error msg) ∧
    (∀ buf, p = some buf → 0 < n →
      CreateManager p n st = Except.ok (true,
        { st with m_pPlayBuffer := p, m_scale := n, m_bCreated := true })) := by
  constructor
  · rintro (rfl | hn)
    · exact ⟨"assertion failure", rfl⟩
    · cases p with
      | none => exact ⟨"assertion failure", rfl⟩
      | some buf =>
          refine ⟨"assertion failure", ?_⟩
          have h2 : decide (n > 0) = false := decide_eq_false (by omega)
          simp only [CreateManager, PLAY_ASSERT, PLAY_ASSERT_MSG, h2,
            Option.isSome_some, if_true, if_false, Bool.false_eq_true]
          rfl
  · rintro buf rfl hn
    have h2 : decide (n > 0) = true := decide_eq_true hn
    simp only [CreateManager, PLAY_ASSERT, PLAY_ASSERT_MSG, h2,
      Option.isSome_some, if_true]
    rfl

/-- C5 witness: both branches of the amended CreateManager contract at
concrete inputs. -/
theorem createManager_spec_witness :
    (∃ msg, CreateManager (some testBuffer) 0 uncreatedState = Except.error msg) ∧
    CreateManager (some testBuffer) 4 uncreatedState = Except.ok (true,
      { uncreatedState with
        m_pPlayBuffer := some testBuffer, m_scale := 4, m_bCreated := true }) :=
  ⟨(createManager_spec (some testBuffer) 0 uncreatedState).1 (Or.inr (by norm_num)),
   (createManager_spec (some testBuffer) 4 uncreatedState).2 testBuffer rfl (by norm_num)⟩

/-- C6: every Window-manager operation other than CreateManager — Present,
HandleWindows, DestroyManager, RegisterMouse, GetWidth, GetHeight, GetScale
and WndProc — fails with the fatal ASSERT_WINDOW assertion when invoked on a
state whose manager has not been created, rather than returning a value. -/
theorem ops_require_created (st : WindowState) (h : st.m_bCreated = false) :
    (∀ before after frequency, Present before after frequency st =
        Except.error ASSERT_WINDOW_MSG) ∧
    (∀ env waitFuel iterFuel msgs startClockIdx,
        HandleWindows env waitFuel iterFuel msgs startClockIdx st =
          Except.error ASSERT_WINDOW_MSG) ∧
    DestroyManager st = Except.error ASSERT_WINDOW_MSG ∧
    (∀ p, RegisterMouse p st = Except.error ASSERT_WINDOW_MSG) ∧
    GetWidth st = Except.error ASSERT_WINDOW_MSG ∧
    GetHeight st = Except.error ASSERT_WINDOW_MSG ∧
    GetScale st = Except.error ASSERT_WINDOW_MSG ∧
    (∀ m, WndProc m st = Except.error ASSERT_WINDOW_MSG) := by
  refine ⟨fun b a f => ?_, fun env wf n msgs k0 => ?_, ?_, fun p => ?_, ?_, ?_, ?_, fun m => ?_⟩ <;>
    (simp only [Present, HandleWindows, DestroyManager, RegisterMouse, GetWidth,
      GetHeight, GetScale, WndProc, ASSERT_WINDOW, PLAY_ASSERT_MSG, h,
      if_false, Bool.false_eq_true]; rfl)

/-- C6 witness: the eight operations each abort on a concrete uncreated
state. -/
theorem ops_require_created_witness :
    Present 0 5 1 uncreatedState = Except.error ASSERT_WINDOW_MSG ∧
    HandleWindows testEnv 1 1 [] 0 uncreatedState = Except.error ASSERT_WINDOW_MSG ∧
    DestroyManager uncreatedState = Except.error ASSERT_WINDOW_MSG ∧
    RegisterMouse (some testMouse) uncreatedState = Except.error ASSERT_WINDOW_MSG ∧
    GetWidth uncreatedState = Except.error ASSERT_WINDOW_MSG ∧
    GetHeight uncreatedState = Except.error ASSERT_WINDOW_MSG ∧
    GetScale uncreatedState = Except.error ASSERT_WINDOW_MSG ∧
    WndProc (WndMsg.mousemove 12 34) uncreatedState = Except.error ASSERT_WINDOW_MSG := by
  have H := ops_require_created uncreatedState rfl
  exact ⟨H.1 0 5 1, H.2.1 testEnv 1 1 [] 0, H.2.2.1, H.2.2.2.1 (some testMouse),
    H.2.2.2.2.1, H.2.2.2.2.2.1, H.2.2.2.2.2.2.1, H.2.2.2.2.2.2.2 (WndMsg.mousemove 12 34)⟩

/-- C7: for every decoder behaviour, input path and destination image,
LoadPNGImage returns 1 on a successful decode and the negated (positive)
codec status — a negative value — when the file cannot be decoded, and on
decode failure the destination image is returned unchanged. -/
theorem loadPNGImage_status (fromFile : String → GdiplusBitmap)
    (fileAndPath : String) (destImage : PixelData) :
    ((fromFile fileAndPath).status ≠ 0 →
      LoadPNGImage fromFile fileAndPath destImage =
        (-(((fromFile fileAndPath).status : ℕ) : ℤ), destImage) ∧
      (LoadPNGImage fromFile fileAndPath destImage).1 < 0 ∧
      (LoadPNGImage fromFile fileAndPath destImage).2 = destImage) ∧
    ((fromFile fileAndPath).status = 0 →
      (LoadPNGImage fromFile fileAndPath destImage).1 = 1) := by
  constructor
  · intro h
    have heq : LoadPNGImage fromFile fileAndPath destImage =
        (-(((fromFile fileAndPath).status : ℕ) : ℤ), destImage) := by
      simp [LoadPNGImage, h]
    refine ⟨heq, ?_, by rw [heq]⟩
    rw [heq]
    have hpos : 0 < (fromFile fileAndPath).status := Nat.pos_of_ne_zero h
    simpa using hpos
  · intro h
    simp [LoadPNGImage, h]

/-- C7 witness: a decoder failing with status 7 yields (-7, unchanged dest);
a successful decode yields 1. -/
theorem loadPNGImage_status_witness :
    (LoadPNGImage (fun _ => ⟨7, 0, 0, []⟩) "missing.png" testBuffer =
        (-7, testBuffer) ∧
      (LoadPNGImage (fun _ => ⟨7, 0, 0, []⟩) "missing.png" testBuffer).1 < 0 ∧
      (LoadPNGImage (fun _ => ⟨7, 0, 0, []⟩) "missing.png" testBuffer).2 = testBuffer) ∧
    (LoadPNGImage (fun _ => ⟨0, 2, 2, [1, 2, 3, 4]⟩) "ok.png" testBuffer).1 = 1 :=
  ⟨(loadPNGImage_status (fun _ => ⟨7, 0, 0, []⟩) "missing.png" testBuffer).1 (by decide),
   (loadPNGImage_status (fun _ => ⟨0, 2, 2, [1, 2, 3, 4]⟩) "ok.png" testBuffer).2 rfl⟩

/-- Evaluation of the WM_MOUSEMOVE case of WndProc on a created state with
registered mouse data and a bound buffer (shared helper). -/
theorem wndProc_mousemove_eq (st : WindowState) (md : MouseData)
    (buf : PixelData) (hc : st.m_bCreated = true) (hmd : st.m_pMouseData = some md)
    (hbuf : st.m_pPlayBuffer = some buf) (wx wy : ℤ) :
    WndProc (WndMsg.mousemove wx wy) st = Except.ok
      ({ st with
         m_pMouseData := some { md with pos :=
          ⟨((cppDiv wx st.m_scale : ℤ) : ℚ),
           (buf.height : ℚ) - ((cppDiv wy st.m_scale : ℤ) : ℚ)⟩ } }, false) := by
  simp only [WndProc, ASSERT_WINDOW, PLAY_ASSERT_MSG, hc, hmd, hbuf, if_true]
  rfl

/-- Evaluation of the WM_MOUSEMOVE case of WndProc when no display buffer is
bound: the height dereference is undefined behaviour (shared helper). -/
theorem wndProc_mousemove_none_buffer (st : WindowState) (md : MouseData)
    (hc : st.m_bCreated = true) (hmd : st.m_pMouseData = some md)
    (hbuf : st.m_pPlayBuffer = none) (wx wy : ℤ) :
    WndProc (WndMsg.mousemove wx wy) st = Except.error "null dereference" := by
  simp only [WndProc, ASSERT_WINDOW, PLAY_ASSERT_MSG, hc, hmd, hbuf, if_true]
  rfl

/-- C8: a WM_MOUSEMOVE event at window coordinates (wx, wy) with registered
mouse data stores the position in unscaled logical coordinates with Y
measured from the bottom of the buffer: x is wx divided (C++ integer
division) by the pixel-scale factor and y is the buffer height minus wy
divided by the pixel-scale factor. -/
theorem wndProc_mousemove_coords (st : WindowState) (md : MouseData)
    (buf : PixelData) (hc : st.m_bCreated = true) (hmd : st.m_pMouseData = some md)
    (hbuf : st.m_pPlayBuffer = some buf) (wx wy : ℤ) :
    WndProc (WndMsg.mousemove wx wy) st = Except.ok
      ({ st with
         m_pMouseData := some { md with pos :=
          ⟨((cppDiv wx st.m_scale : ℤ) : ℚ),
           (buf.height : ℚ) - ((cppDiv wy st.m_scale : ℤ) : ℚ)⟩ } }, false) :=
  wndProc_mousemove_eq st md buf hc hmd hbuf wx wy

/-- C8 witness: on a scale-4 window over a 320x240 buffer, window coordinates
(17, 100) are reported as (17 div 4, 240 - 100 div 4) = (4, 215). -/
theorem wndProc_mousemove_coords_witness :
    WndProc (WndMsg.mousemove 17 100) createdState = Except.ok
      ({ createdState with
         m_pMouseData := some { testMouse with pos :=
          ⟨((cppDiv 17 createdState.m_scale : ℤ) : ℚ),
           (testBuffer.height : ℚ) - ((cppDiv 100 createdState.m_scale : ℤ) : ℚ)⟩ } },
        false) ∧
    ((cppDiv 17 createdState.m_scale : ℤ) : ℚ) = 4 ∧
    (testBuffer.height : ℚ) - ((cppDiv 100 createdState.m_scale : ℤ) : ℚ) = 215 :=
  ⟨wndProc_mousemove_coords createdState testMouse testBuffer rfl rfl rfl 17 100,
   by rw [show cppDiv 17 createdState.m_scale = 4 from by decide]; norm_num,
   by rw [show cppDiv 100 createdState.m_scale = 25 from by decide]; norm_num [testBuffer]⟩

/-- C10: a WM_MOUSELEAVE event with registered mouse data sets the reported
position to the sentinel (-1, -1); and no WM_MOUSEMOVE event at in-window
coordinates (wx nonnegative, positive scale) can report that position, since
its reported x is nonnegative. -/
theorem wndProc_mouseleave_sentinel (st : WindowState) (md : MouseData)
    (hc : st.m_bCreated = true) (hmd : st.m_pMouseData = some md) :
    WndProc WndMsg.mouseleave st = Except.ok
      ({ st with m_pMouseData := some { md with pos := ⟨-1, -1⟩ } }, false) ∧
    (∀ (wx wy : ℤ) (st2 : WindowState) (q : Bool) (md2 : MouseData),
      0 < st.m_scale → 0 ≤ wx →
      WndProc (WndMsg.mousemove wx wy) st = Except.ok (st2, q) →
      st2.m_pMouseData = some md2 → md2.pos ≠ ⟨-1, -1⟩) := by
  constructor
  · simp only [WndProc, ASSERT_WINDOW, PLAY_ASSERT_MSG, hc, hmd, if_true]
    rfl
  · intro wx wy st2 q md2 hscale hwx hrun hmd2
    cases hbuf : st.m_pPlayBuffer with
    | none =>
        rw [wndProc_mousemove_none_buffer st md hc hmd hbuf wx wy] at hrun
        exact absurd hrun (by simp)
    | some buf =>
        rw [wndProc_mousemove_eq st md buf hc hmd hbuf wx wy] at hrun
        have hst2 : st2 = { st with
            m_pMouseData := some { md with pos :=
              ⟨((cppDiv wx st.m_scale : ℤ) : ℚ),
               (buf.height : ℚ) - ((cppDiv wy st.m_scale : ℤ) : ℚ)⟩ } } :=
          (congrArg Prod.fst (Except.ok.inj hrun)).symm
        rw [hst2] at hmd2
        have hmd2' : md2 = { md with pos :=
            ⟨((cppDiv wx st.m_scale : ℤ) : ℚ),
             (buf.height : ℚ) - ((cppDiv wy st.m_scale : ℤ) : ℚ)⟩ } := by
          simpa using hmd2.symm
        have hx : (0 : ℚ) ≤ ((cppDiv wx st.m_scale : ℤ) : ℚ) := by
          have := Int.tdiv_nonneg hwx (le_of_lt hscale)
          exact_mod_cast this
        intro hcontra
        rw [hmd2'] at hcontra
        have : ((cppDiv wx st.m_scale : ℤ) : ℚ) = -1 :=
          congrArg Vector2f.x hcontra
        rw [this] at hx
        norm_num at hx

/-- C10 witness: on the concrete created state, WM_MOUSELEAVE reports the
(-1, -1) sentinel and a concrete in-window WM_MOUSEMOVE cannot. -/
theorem wndProc_mouseleave_sentinel_witness :
    WndProc WndMsg.mouseleave createdState = Except.ok
      ({ createdState with
         m_pMouseData := some { testMouse with pos := ⟨-1, -1⟩ } }, false) := by
  exact (wndProc_mouseleave_sentinel createdState testMouse rfl rfl).1

end PlayWindow

namespace PlayGraphics

/-- Multiplying a pixel by the opaque-white factor is the identity. -/
theorem applyMultiply_white (p : QPixel) : applyMultiply opaqueWhite p = p := by
  simp [applyMultiply, opaqueWhite]

/-- C9: for every sample oracle, blend mode, sprite id, position and frame
index, the plain Draw entry point produces output identical to
DrawTransparent with the opaque-white multiply (1,1,1,1); and under the
normal blend mode the fast path that skips the per-pixel multiply agrees
with the general multiply path evaluated at opaque-white. -/
theorem draw_equals_drawTransparent_white
    (sample : ℤ → PlayWindow.Vector2f → ℤ → List (QPixel × QPixel))
    (mode : BlendMode) (spriteId : ℤ) (pos : PlayWindow.Vector2f)
    (frameIndex : ℤ) :
    Draw sample mode spriteId pos frameIndex =
      DrawTransparent sample mode spriteId pos frameIndex opaqueWhite ∧
    DrawTransparent sample BlendMode.BLEND_NORMAL spriteId pos frameIndex opaqueWhite =
      (sample spriteId pos frameIndex).map
        (fun sd => blendPixel BlendMode.BLEND_NORMAL
          (applyMultiply opaqueWhite sd.1) sd.2) := by
  refine ⟨rfl, ?_⟩
  simp only [DrawTransparent, and_self, if_true, reduceIte]
  exact List.map_congr_left (fun sd _ => by rw [applyMultiply_white])

end PlayGraphics

namespace PlayWindow

/-- The trace of a run with this iteration's events prefixed. -/
theorem prependEvents_trace (l : List LoopEvent) (r : RunResult) :
    (prependEvents l r).trace = l ++ r.trace := by
  cases r <;> simp [prependEvents, RunResult.trace]

/-- The busy-wait only returns once at least one target frame interval
(1000/FRAMES_PER_SECOND ms) has elapsed since lastDrawTime. -/
theorem busyWait_elapsed_ge (env : FrameEnv) :
    ∀ (fuel k : ℕ) (lastDrawTime : ℤ) (res : ℕ × ℤ × ℚ),
      busyWait env fuel k lastDrawTime = some res → 1000 / env.fps ≤ res.2.2 := by
  intro fuel
  induction fuel with
  | zero =>
      intro k lastDrawTime res h
      simp [busyWait] at h
  | succ n ih =>
      intro k lastDrawTime res h
      simp only [busyWait] at h
      split at h
      · exact ih _ _ _ h
      · rename_i hc
        cases h
        simpa using not_lt.mp hc

/-- The elapsed value the busy-wait returns is the elapsed-milliseconds
reading taken at its final counter value. -/
theorem busyWait_some_shape (env : FrameEnv) :
    ∀ (fuel k : ℕ) (lastDrawTime : ℤ) (res : ℕ × ℤ × ℚ),
      busyWait env fuel k lastDrawTime = some res →
      res.2.2 = elapsedMsOf env res.2.1 lastDrawTime := by
  intro fuel
  induction fuel with
  | zero =>
      intro k lastDrawTime res h
      simp [busyWait] at h
  | succ n ih =>
      intro k lastDrawTime res h
      simp only [busyWait] at h
      split at h
      · exact ih _ _ _ h
      · cases h
        rfl

/-- From a frame-interval bound in milliseconds to the bound on the
elapsed-seconds value e/1000 passed to the update callback. -/
theorem pace_bounds (fps e : ℚ) (h : 1000 / fps ≤ e) :
    1000 / fps ≤ (e / 1000) * 1000 ∧ 1 / fps ≤ e / 1000 := by
  constructor
  · rwa [div_mul_cancel₀ e (by norm_num : (1000 : ℚ) ≠ 0)]
  · have h2 : (1000 / fps) / 1000 ≤ e / 1000 :=
      (div_le_div_iff_of_pos_right (by norm_num : (0 : ℚ) < 1000)).mpr h
    rwa [div_right_comm, (by norm_num : (1000 : ℚ) / 1000 = 1)] at h2

/-- The message-handling phase leaves lastDrawTime, the clock cursor and the
iteration counter unchanged. -/
theorem messagePhase_preserves (s : LoopState) :
    (messagePhase s).2.lastDrawTime = s.lastDrawTime ∧
    (messagePhase s).2.clockIdx = s.clockIdx ∧
    (messagePhase s).2.iter = s.iter := by
  rcases s with ⟨q, l, c, i⟩
  cases q with
  | nil => simp [messagePhase]
  | cons m rest => cases m <;> simp [messagePhase]

/-- frameStep breaks out of the loop exactly when the handled message was
WM_QUIT. -/
theorem frameStep_broke_of (env : FrameEnv) (waitFuel : ℕ) (s : LoopState)
    (hmp : (messagePhase s).1 = true) :
    frameStep env waitFuel s = StepResult.broke (messagePhase s).2 := by
  simp only [frameStep, hmp, if_true]

/-- frameStep stalls when the busy-wait fuel runs out. -/
theorem frameStep_stalled_of (env : FrameEnv) (waitFuel : ℕ) (s : LoopState)
    (hmp : (messagePhase s).1 = false)
    (hbw : busyWait env waitFuel s.clockIdx s.lastDrawTime = none) :
    frameStep env waitFuel s = StepResult.stalled (messagePhase s).2 := by
  have hp := messagePhase_preserves s
  simp only [frameStep, hmp, Bool.false_eq_true, if_false, hp.1, hp.2.1, hbw]

/-- Explicit evaluation of a non-breaking, non-stalling frameStep. -/
theorem frameStep_eq_of (env : FrameEnv) (waitFuel : ℕ) (s : LoopState)
    (k : ℕ) (now : ℤ) (e : ℚ) (hmp : (messagePhase s).1 = false)
    (hbw : busyWait env waitFuel s.clockIdx s.lastDrawTime = some (k, now, e)) :
    frameStep env waitFuel s =
      StepResult.stepped
        (if env.isDebug || env.focus s.iter then env.update s.iter (e / 1000) else false)
        (if env.isDebug || env.focus s.iter then
          some (LoopEvent.updateCall (e / 1000)
            (if env.isDebug || env.focus s.iter then env.update s.iter (e / 1000) else false))
         else none)
        { (messagePhase s).2 with
          clockIdx := k, lastDrawTime := now, iter := s.iter + 1 } := by
  have hp := messagePhase_preserves s
  simp only [frameStep, hmp, Bool.false_eq_true, if_false, hp.1, hp.2.1, hp.2.2, hbw]

/-- Inversion: a completed (non-breaking, non-stalling) loop iteration came
from a successful busy-wait, advanced the iteration counter and stored the
post-wait counter value, and called the update callback — recording the
elapsed-seconds argument — exactly when debug mode or focus allowed it. -/
theorem frameStep_stepped_inv (env : FrameEnv) (waitFuel : ℕ) (s : LoopState)
    (q : Bool) (ev : Option LoopEvent) (s1 : LoopState)
    (h : frameStep env waitFuel s = StepResult.stepped q ev s1) :
    ∃ k now e,
      busyWait env waitFuel s.clockIdx s.lastDrawTime = some (k, now, e) ∧
      s1 = { (messagePhase s).2 with
             clockIdx := k, lastDrawTime := now, iter := s.iter + 1 } ∧
      ((env.isDebug || env.focus s.iter) = true →
        q = env.update s.iter (e / 1000) ∧
        ev = some (LoopEvent.updateCall (e / 1000) q)) ∧
      ((env.isDebug || env.focus s.iter) = false → q = false ∧ ev = none) := by
  cases hmp : (messagePhase s).1 with
  | true =>
      rw [frameStep_broke_of env waitFuel s hmp] at h
      exact absurd h (by simp)
  | false =>
      cases hbw : busyWait env waitFuel s.clockIdx s.lastDrawTime with
      | none =>
          rw [frameStep_stalled_of env waitFuel s hmp hbw] at h
          exact absurd h (by simp)
      | some res =>
          obtain ⟨k, now, e⟩ := res
          rw [frameStep_eq_of env waitFuel s k now e hmp hbw] at h
          injection h with hq hev hs
          refine ⟨k, now, e, rfl, hs.symm, ?_, ?_⟩
          · intro hcond
            rw [hcond] at hq hev
            simp only [if_true] at hq hev
            refine ⟨hq.symm, ?_⟩
            rw [← hev, ← hq]
          · intro hcond
            rw [hcond] at hq hev
            simp only [Bool.false_eq_true, if_false] at hq hev
            exact ⟨hq.symm, hev.symm⟩

/-- The event emitted by a completed iteration is absent or a single update
call recording the quit flag the iteration returned. -/
theorem frameStep_ev_shape (env : FrameEnv) (waitFuel : ℕ) (s : LoopState)
    (q : Bool) (ev : Option LoopEvent) (s1 : LoopState)
    (h : frameStep env waitFuel s = StepResult.stepped q ev s1) :
    ev = none ∨ ∃ e, ev = some (LoopEvent.updateCall e q) := by
  obtain ⟨k, now, e, _, _, htrue, hfalse⟩ :=
    frameStep_stepped_inv env waitFuel s q ev s1 h
  cases hcond : env.isDebug || env.focus s.iter with
  | true => exact Or.inr ⟨e / 1000, (htrue hcond).2⟩
  | false => exact Or.inl (hfalse hcond).2

/-- Any update event emitted by a loop iteration carries an elapsed-seconds
value no smaller than one target frame interval. -/
theorem frameStep_update_elapsed (env : FrameEnv) (waitFuel : ℕ) (s : LoopState)
    (q : Bool) (ev : Option LoopEvent) (s1 : LoopState) (es : ℚ) (ret : Bool)
    (h : frameStep env waitFuel s = StepResult.stepped q ev s1)
    (hmem : LoopEvent.updateCall es ret ∈ ev.toList) :
    1000 / env.fps ≤ es * 1000 ∧ 1 / env.fps ≤ es := by
  obtain ⟨k, now, e, hbw, _, htrue, hfalse⟩ :=
    frameStep_stepped_inv env waitFuel s q ev s1 h
  have hthr : 1000 / env.fps ≤ e := by
    have := busyWait_elapsed_ge env waitFuel s.clockIdx s.lastDrawTime (k, now, e) hbw
    simpa using this
  cases hcond : env.isDebug || env.focus s.iter with
  | true =>
      obtain ⟨-, hev⟩ := htrue hcond
      rw [hev] at hmem
      simp only [Option.toList_some, List.mem_singleton] at hmem
      injection hmem with hes hret
      rw [hes]
      exact pace_bounds env.fps e hthr
  | false =>
      rw [(hfalse hcond).2] at hmem
      simp at hmem

/-- C1: every update event in the trace of the Running frame loop carries an
elapsed-seconds value of at least 1/FRAMES_PER_SECOND — equivalently, the
callback was invoked only after at least one target frame interval
(1000/FRAMES_PER_SECOND ms) had elapsed since the previous iteration's
stored timestamp. -/
theorem frame_loop_update_paced (env : FrameEnv) (hfps : 0 < env.fps)
    (waitFuel iterFuel : ℕ) (s : LoopState) (es : ℚ) (ret : Bool)
    (hmem : LoopEvent.updateCall es ret ∈ (runLoop env waitFuel iterFuel s).trace) :
    1000 / env.fps ≤ es * 1000 ∧ 1 / env.fps ≤ es := by
  induction iterFuel generalizing s with
  | zero => simp [runLoop, RunResult.trace] at hmem
  | succ n ih =>
      rw [runLoop] at hmem
      cases hstep : frameStep env waitFuel s with
      | broke s1 =>
          rw [hstep] at hmem
          simp [RunResult.trace] at hmem
      | stalled s1 =>
          rw [hstep] at hmem
          simp [RunResult.trace] at hmem
      | stepped q ev s1 =>
          rw [hstep] at hmem
          cases q with
          | true =>
              simp only [RunResult.trace] at hmem
              exact frameStep_update_elapsed env waitFuel s true ev s1 es ret hstep hmem
          | false =>
              simp only [prependEvents_trace, List.mem_append] at hmem
              rcases hmem with hmem | hmem
              · exact frameStep_update_elapsed env waitFuel s false ev s1 es ret hstep hmem
              · exact ih s1 hmem

/-- The while loop itself never emits an exit event: MainGameExit is only
called by HandleWindows after the loop has ended. -/
theorem runLoop_no_exit (env : FrameEnv) (waitFuel : ℕ) :
    ∀ (n : ℕ) (s : LoopState), LoopEvent.exitCall ∉ (runLoop env waitFuel n s).trace := by
  intro n
  induction n with
  | zero => intro s; simp [runLoop, RunResult.trace]
  | succ n ih =>
      intro s
      rw [runLoop]
      cases hstep : frameStep env waitFuel s with
      | broke s1 => simp [RunResult.trace]
      | stalled s1 => simp [RunResult.trace]
      | stepped q ev s1 =>
          have hshape := frameStep_ev_shape env waitFuel s q ev s1 hstep
          cases q with
          | true =>
              simp only [RunResult.trace]
              rcases hshape with rfl | ⟨e, rfl⟩ <;> simp
          | false =>
              simp only [prependEvents_trace, List.mem_append, not_or]
              refine ⟨?_, ih s1⟩
              rcases hshape with rfl | ⟨e, rfl⟩ <;> simp

/-- While the loop is still running (fuel exhausted without a quit), no
update call in its trace has returned true. -/
theorem runLoop_outOfFuel_no_true (env : FrameEnv) (waitFuel : ℕ) :
    ∀ (n : ℕ) (s : LoopState) (tr : List LoopEvent) (s2 : LoopState),
      runLoop env waitFuel n s = RunResult.outOfFuel tr s2 →
      ∀ e, LoopEvent.updateCall e true ∉ tr := by
  intro n
  induction n with
  | zero =>
      intro s tr s2 h e
      rw [runLoop] at h
      injection h with htr hs
      rw [← htr]
      simp
  | succ n ih =>
      intro s tr s2 h e
      rw [runLoop] at h
      cases hstep : frameStep env waitFuel s with
      | broke s1 => rw [hstep] at h; simp at h
      | stalled s1 =>
          rw [hstep] at h
          injection h with htr hs
          rw [← htr]
          simp
      | stepped q ev s1 =>
          rw [hstep] at h
          have hshape := frameStep_ev_shape env waitFuel s q ev s1 hstep
          cases q with
          | true => simp at h
          | false =>
              have h2 : prependEvents ev.toList (runLoop env waitFuel n s1) =
                  RunResult.outOfFuel tr s2 := h
              cases hr : runLoop env waitFuel n s1 with
              | finished r' tr' s' => rw [hr] at h2; simp [prependEvents] at h2
              | outOfFuel tr' s' =>
                  rw [hr] at h2
                  simp only [prependEvents] at h2
                  injection h2 with htr hs
                  rw [← htr]
                  simp only [List.mem_append, not_or]
                  refine ⟨?_, ih s1 tr' s' hr e⟩
                  rcases hshape with rfl | ⟨e', rfl⟩ <;> simp

/-- A loop that finished because the update callback requested it has an
update event returning true in its trace. -/
theorem runLoop_finished_updateRequested (env : FrameEnv) (waitFuel : ℕ) :
    ∀ (n : ℕ) (s : LoopState) (tr : List LoopEvent) (s2 : LoopState),
      runLoop env waitFuel n s =
        RunResult.finished QuitReason.updateRequested tr s2 →
      ∃ e, LoopEvent.updateCall e true ∈ tr := by
  intro n
  induction n with
  | zero => intro s tr s2 h; rw [runLoop] at h; simp at h
  | succ n ih =>
      intro s tr s2 h
      rw [runLoop] at h
      cases hstep : frameStep env waitFuel s with
      | broke s1 =>
          rw [hstep] at h
          injection h with hr htr hs
          exact absurd hr (by simp)
      | stalled s1 => rw [hstep] at h; simp at h
      | stepped q ev s1 =>
          rw [hstep] at h
          cases q with
          | true =>
              injection h with hr htr hs
              obtain ⟨k, now, e', hbw, hs1, htrue, hfalse⟩ :=
                frameStep_stepped_inv env waitFuel s true ev s1 hstep
              cases hcond : env.isDebug || env.focus s.iter with
              | false => exact absurd (hfalse hcond).1 (by simp)
              | true =>
                  obtain ⟨hq, hev⟩ := htrue hcond
                  refine ⟨e' / 1000, ?_⟩
                  rw [← htr, hev]
                  simp
          | false =>
              have h2 : prependEvents ev.toList (runLoop env waitFuel n s1) =
                  RunResult.finished QuitReason.updateRequested tr s2 := h
              cases hr : runLoop env waitFuel n s1 with
              | outOfFuel tr' s' => rw [hr] at h2; simp [prependEvents] at h2
              | finished r' tr' s' =>
                  rw [hr] at h2
                  simp only [prependEvents] at h2
                  injection h2 with hrr htr hs
                  obtain ⟨e, hmem⟩ := ih s1 tr' s' (by rw [hr, ← hrr])
                  refine ⟨e, ?_⟩
                  rw [← htr]
                  exact List.mem_append_right _ hmem

/-- C2: the Running loop terminates exactly on a WM_QUIT quit signal or a
true return from the update callback, and the exit callback is invoked
exactly once, after the loop — never while it is still running. -/
theorem frame_loop_exit_once (env : FrameEnv) (waitFuel iterFuel : ℕ)
    (msgs : List LoopMsg) (startClockIdx : ℕ) (st : WindowState) :
    (∀ r tr s, HandleWindows env waitFuel iterFuel msgs startClockIdx st =
        Except.ok (RunResult.finished r tr s) →
      (∃ tr0, tr = tr0 ++ [LoopEvent.exitCall] ∧ LoopEvent.exitCall ∉ tr0) ∧
      (r = QuitReason.updateRequested → ∃ e, LoopEvent.updateCall e true ∈ tr)) ∧
    (∀ tr s, HandleWindows env waitFuel iterFuel msgs startClockIdx st =
        Except.ok (RunResult.outOfFuel tr s) →
      LoopEvent.exitCall ∉ tr ∧ ∀ e, LoopEvent.updateCall e true ∉ tr) ∧
    (∀ (n : ℕ) (s s1 : LoopState), frameStep env waitFuel s = StepResult.broke s1 →
      runLoop env waitFuel (n + 1) s =
        RunResult.finished QuitReason.quitMessage [] s1) ∧
    (∀ (n : ℕ) (s : LoopState) (ev : Option LoopEvent) (s1 : LoopState),
      frameStep env waitFuel s = StepResult.stepped true ev s1 →
      runLoop env waitFuel (n + 1) s =
        RunResult.finished QuitReason.updateRequested ev.toList s1) := by
  have htrig1 : ∀ (n : ℕ) (s s1 : LoopState),
      frameStep env waitFuel s = StepResult.broke s1 →
      runLoop env waitFuel (n + 1) s =
        RunResult.finished QuitReason.quitMessage [] s1 := by
    intro n s s1 hstep
    rw [runLoop, hstep]
  have htrig2 : ∀ (n : ℕ) (s : LoopState) (ev : Option LoopEvent)
      (s1 : LoopState), frameStep env waitFuel s = StepResult.stepped true ev s1 →
      runLoop env waitFuel (n + 1) s =
        RunResult.finished QuitReason.updateRequested ev.toList s1 := by
    intro n s ev s1 hstep
    rw [runLoop, hstep]
  cases hb : st.m_bCreated with
  | false =>
      refine ⟨?_, ?_, htrig1, htrig2⟩
      · intro r tr s h
        simp only [HandleWindows, ASSERT_WINDOW, PLAY_ASSERT_MSG, hb,
          Bool.false_eq_true, if_false] at h
        exact Except.noConfusion h
      · intro tr s h
        simp only [HandleWindows, ASSERT_WINDOW, PLAY_ASSERT_MSG, hb,
          Bool.false_eq_true, if_false] at h
        exact Except.noConfusion h
  | true =>
      have hred : ∀ R, HandleWindows env waitFuel iterFuel msgs startClockIdx st =
          Except.ok R →
          finishRun (runLoop env waitFuel iterFuel
            (initLoopState env msgs startClockIdx)) = R := by
        intro R h
        simp only [HandleWindows, ASSERT_WINDOW, PLAY_ASSERT_MSG, hb, if_true] at h
        exact Except.ok.inj h
      refine ⟨?_, ?_, htrig1, htrig2⟩
      · intro r tr s h
        have h' := hred _ h
        cases hr : runLoop env waitFuel iterFuel
            (initLoopState env msgs startClockIdx) with
        | outOfFuel tr' s' => rw [hr] at h'; simp [finishRun] at h'
        | finished r' tr' s' =>
            rw [hr] at h'
            simp only [finishRun] at h'
            injection h' with hrr htr hs
            constructor
            · refine ⟨tr', ?_, ?_⟩
              · rw [← htr]
              · have := runLoop_no_exit env waitFuel iterFuel
                  (initLoopState env msgs startClockIdx)
                rw [hr] at this
                simpa [RunResult.trace] using this
            · intro hreq
              obtain ⟨e, hmem⟩ := runLoop_finished_updateRequested env waitFuel
                iterFuel (initLoopState env msgs startClockIdx) tr' s'
                (by rw [hr, hrr, hreq])
              refine ⟨e, ?_⟩
              rw [← htr]
              exact List.mem_append_left _ hmem
      · intro tr s h
        have h' := hred _ h
        cases hr : runLoop env waitFuel iterFuel
            (initLoopState env msgs startClockIdx) with
        | finished r' tr' s' => rw [hr] at h'; simp [finishRun] at h'
        | outOfFuel tr' s' =>
            rw [hr] at h'
            simp only [finishRun] at h'
            injection h' with htr hs
            constructor
            · have := runLoop_no_exit env waitFuel iterFuel
                (initLoopState env msgs startClockIdx)
              rw [hr] at this
              rw [← htr]
              simpa [RunResult.trace] using this
            · intro e
              rw [← htr]
              exact runLoop_outOfFuel_no_true env waitFuel iterFuel
                (initLoopState env msgs startClockIdx) tr' s' hr e

/-- C2 witness: a pending WM_QUIT message ends the loop at once and the exit
callback is recorded exactly once, at the end of the trace. -/
theorem frame_loop_exit_once_witness :
    (∃ tr0, [LoopEvent.exitCall] = tr0 ++ [LoopEvent.exitCall] ∧
      LoopEvent.exitCall ∉ tr0) ∧
    (QuitReason.quitMessage = QuitReason.updateRequested →
      ∃ e, LoopEvent.updateCall e true ∈ [LoopEvent.exitCall]) :=
  (frame_loop_exit_once testEnv 1 1 [LoopMsg.quitMsg] 0 createdState).1
    QuitReason.quitMessage [LoopEvent.exitCall] ⟨[], 0, 1, 0⟩ (by rfl)

/-- C1 witness: in the concrete 100-fps environment the single update event
is called with 1 elapsed second, at least the 10 ms target interval. -/
theorem frame_loop_update_paced_witness :
    1000 / testEnv.fps ≤ (1 : ℚ) * 1000 ∧ 1 / testEnv.fps ≤ (1 : ℚ) := by
  refine frame_loop_update_paced testEnv (by norm_num [testEnv]) 1 1
    emptyQueueState 1 true ?_
  norm_num [runLoop, frameStep, messagePhase, busyWait, elapsedMsOf, testEnv,
    emptyQueueState, RunResult.trace]

/-- C3: in a release (non-debug) configuration a completed loop iteration
calls the update callback if and only if the window has input focus; when
the call is skipped the iteration still advances, does not quit, and still
stores the post-wait timestamp — whose distance to the previous timestamp is
at least one frame interval — so that gameplay time is frozen rather than
accumulated. -/
theorem release_focus_gate (env : FrameEnv) (waitFuel : ℕ) (s : LoopState)
    (hdbg : env.isDebug = false) (q : Bool) (ev : Option LoopEvent)
    (s1 : LoopState) (h : frameStep env waitFuel s = StepResult.stepped q ev s1) :
    ((∃ es r, ev = some (LoopEvent.updateCall es r)) ↔ env.focus s.iter = true) ∧
    (env.focus s.iter = false →
      ev = none ∧ q = false ∧ s1.iter = s.iter + 1 ∧
      1000 / env.fps ≤ elapsedMsOf env s1.lastDrawTime s.lastDrawTime) := by
  obtain ⟨k, now, e, hbw, hs1, htrue, hfalse⟩ :=
    frameStep_stepped_inv env waitFuel s q ev s1 h
  have hcond : (env.isDebug || env.focus s.iter) = env.focus s.iter := by
    rw [hdbg]
    simp
  constructor
  · constructor
    · rintro ⟨es, r, hev⟩
      by_contra hf
      have hf' : env.focus s.iter = false := by simpa using hf
      have hnone := (hfalse (by rw [hcond, hf'])).2
      rw [hnone] at hev
      exact Option.noConfusion hev
    · intro hf
      obtain ⟨hq, hev⟩ := htrue (by rw [hcond, hf])
      exact ⟨e / 1000, q, hev⟩
  · intro hf
    obtain ⟨hq, hev⟩ := hfalse (by rw [hcond, hf])
    have hge := busyWait_elapsed_ge env waitFuel s.clockIdx s.lastDrawTime
      (k, now, e) hbw
    have hsh := busyWait_some_shape env waitFuel s.clockIdx s.lastDrawTime
      (k, now, e) hbw
    refine ⟨hev, hq, by rw [hs1], ?_⟩
    rw [hs1]
    show 1000 / env.fps ≤ elapsedMsOf env now s.lastDrawTime
    simp only at hge hsh
    rw [← hsh]
    exact hge

/-- C3 witness: in a focus-less release environment the concrete iteration
emits no update event, does not quit, advances the iteration counter, and
stores a timestamp a full frame interval later. -/
theorem release_focus_gate_witness :
    ((∃ es r, (none : Option LoopEvent) = some (LoopEvent.updateCall es r)) ↔
      noFocusEnv.focus emptyQueueState.iter = true) ∧
    (noFocusEnv.focus emptyQueueState.iter = false →
      (none : Option LoopEvent) = none ∧ false = false ∧
      (⟨[], 1, 2, 1⟩ : LoopState).iter = emptyQueueState.iter + 1 ∧
      1000 / noFocusEnv.fps ≤
        elapsedMsOf noFocusEnv (⟨[], 1, 2, 1⟩ : LoopState).lastDrawTime
          emptyQueueState.lastDrawTime) := by
  refine release_focus_gate noFocusEnv 1 emptyQueueState rfl false none
    ⟨[], 1, 2, 1⟩ ?_
  norm_num [frameStep, messagePhase, busyWait, elapsedMsOf, noFocusEnv,
    emptyQueueState]

/-- C4 counterexample: with two pending non-quit messages, the
message-handling phase of a loop iteration removes only the first, so a
pending input event remains in the queue at the point the frame-interval
wait (and then the update call) begins — the iteration does not drain all
pending input events. -/
theorem message_drain_counterexample :
    (messagePhase twoMsgState).1 = false ∧
    (messagePhase twoMsgState).2.msgQueue = [LoopMsg.otherMsg false] :=
  ⟨rfl, rfl⟩

/-- C4 (amended): each iteration of the frame loop handles at most one
pending input event before the frame-interval wait: with two or more
pending messages, the second is still pending when the wait begins, and the
queue length never grows past its original length. -/
theorem message_phase_at_most_one (s : LoopState) (m1 m2 : LoopMsg)
    (rest : List LoopMsg) (h : s.msgQueue = m1 :: m2 :: rest) :
    m2 ∈ (messagePhase s).2.msgQueue ∧
    (messagePhase s).2.msgQueue.length ≤ s.msgQueue.length := by
  rcases s with ⟨mq, l, c, i⟩
  simp only at h
  subst h
  cases m1 with
  | quitMsg => simp [messagePhase]
  | otherMsg p => cases p <;> simp [messagePhase]

/-- C4 witness: with two concrete pending messages, the second is still
pending at the wait. -/
theorem message_phase_at_most_one_witness :
    LoopMsg.otherMsg false ∈ (messagePhase twoMsgState).2.msgQueue ∧
    (messagePhase twoMsgState).2.msgQueue.length ≤ twoMsgState.msgQueue.length :=
  message_phase_at_most_one twoMsgState (LoopMsg.otherMsg false)
    (LoopMsg.otherMsg false) [] rfl

end PlayWindow
